import Mathlib

/-!
Shallow embedding of the viewport-transform, watermark and crop logic of the
Ai-Image-editor repository.  Real-number coordinates are modelled by `ℚ`.
-/

set_option linter.unusedVariables false

/-- Pixel dimensions of an image or canvas (`Dimensions` in the source hooks). -/
structure Dimensions where
  width : ℚ
  height : ℚ
deriving DecidableEq

/-- Pan/zoom state: the image scaled by `scale` has its top-left corner at
canvas coordinate `(x, y)` (the `Transform` interface of the source). -/
structure Transform where
  scale : ℚ
  x : ℚ
  y : ℚ
deriving DecidableEq

/-- `clampPosition` from `useImageTransform`: clamps `x` to
`min(0, max(x, canvas.width - imgDim.width*scale))` and symmetrically `y`,
leaving `scale` untouched. -/
def clampPosition (newTransform : Transform) (canvas imgDim : Dimensions) : Transform :=
  let scaledWidth := imgDim.width * newTransform.scale
  let scaledHeight := imgDim.height * newTransform.scale
  let clampedX := min 0 (max newTransform.x (canvas.width - scaledWidth))
  let clampedY := min 0 (max newTransform.y (canvas.height - scaledHeight))
  { newTransform with x := clampedX, y := clampedY }

/-- The drag update of `handleMouseMove`: add the mouse delta to the position
and re-clamp.  Drag never changes `scale`. -/
def onDragDelta (prev : Transform) (dx dy : ℚ) (canvas imgDim : Dimensions) : Transform :=
  clampPosition { prev with x := prev.x + dx, y := prev.y + dy } canvas imgDim

/-- `handleWheel` from `useImageTransform`: `scaleAmount = deltaY * -0.001`,
`newScale = max(0.1, prev.scale + scaleAmount)`, keep the image point under the
mouse fixed, clamp, and reject the zoom (returning `prev`) when the clamped
result would leave the scaled image smaller than the canvas on either axis. -/
def handleWheel (prev : Transform) (deltaY mouseX mouseY : ℚ) (canvas imgDim : Dimensions) :
    Transform :=
  let scaleAmount := deltaY * (-1/1000)
  let newScale := max (1/10) (prev.scale + scaleAmount)
  let imagePointX := (mouseX - prev.x) / prev.scale
  let imagePointY := (mouseY - prev.y) / prev.scale
  let newX := mouseX - imagePointX * newScale
  let newY := mouseY - imagePointY * newScale
  let clamped := clampPosition { scale := newScale, x := newX, y := newY } canvas imgDim
  if clamped.scale * imgDim.width < canvas.width ∨ clamped.scale * imgDim.height < canvas.height
  then prev
  else clamped

/-- Minimum scale at which the image covers the canvas on both axes. -/
def coverScale (canvas imgDim : Dimensions) : ℚ :=
  max (canvas.width / imgDim.width) (canvas.height / imgDim.height)

/-- The initial "cover" transform computed in `handleSelectAspectRatio`:
pick the scale by comparing the canvas and image aspect ratios, then center
the scaled image in the canvas. -/
def seedCoverTransform (canvas imgDim : Dimensions) : Transform :=
  let canvasRatio := canvas.width / canvas.height
  let imageRatio := imgDim.width / imgDim.height
  let scale := if canvasRatio > imageRatio then canvas.width / imgDim.width
               else canvas.height / imgDim.height
  { scale := scale
  , x := (canvas.width - imgDim.width * scale) / 2
  , y := (canvas.height - imgDim.height * scale) / 2 }

/-- The cover invariant of the spec: the scaled image is at least as large as
the canvas on both axes, and the position stays within the derived bounds. -/
def coverInvariant (t : Transform) (canvas imgDim : Dimensions) : Prop :=
  canvas.width ≤ t.scale * imgDim.width ∧
  canvas.height ≤ t.scale * imgDim.height ∧
  canvas.width - t.scale * imgDim.width ≤ t.x ∧ t.x ≤ 0 ∧
  canvas.height - t.scale * imgDim.height ≤ t.y ∧ t.y ≤ 0

/-- Transforms producible by the controller: the seed transform of
`handleSelectAspectRatio`, then any sequence of drags and wheel zooms. -/
inductive ReachableTransform (canvas imgDim : Dimensions) : Transform → Prop
  | seed : ReachableTransform canvas imgDim (seedCoverTransform canvas imgDim)
  | drag (t : Transform) (dx dy : ℚ) :
      ReachableTransform canvas imgDim t →
      ReachableTransform canvas imgDim (onDragDelta t dx dy canvas imgDim)
  | wheel (t : Transform) (deltaY mouseX mouseY : ℚ) :
      ReachableTransform canvas imgDim t →
      ReachableTransform canvas imgDim (handleWheel t deltaY mouseX mouseY canvas imgDim)

/-- An axis-aligned rectangle with top-left corner `(x, y)`. -/
structure Rect where
  x : ℚ
  y : ℚ
  w : ℚ
  h : ℚ
deriving DecidableEq

/-- Semantics of the canvas `drawImage(img, sx, sy, sw, sh, dx, dy, dw, dh)`
primitive at the coordinate level: the source-image point that is shown at a
given destination point `p`, under the affine map taking `dst` onto `src`. -/
def drawImageSourcePoint (src dst : Rect) (p : ℚ × ℚ) : ℚ × ℚ :=
  (src.x + (p.1 - dst.x) * src.w / dst.w, src.y + (p.2 - dst.y) * src.h / dst.h)

/-- The source rectangle computed by `handleApplyCrop` / `handleRegenerate`:
`sx = -x/scale`, `sy = -y/scale`, `sWidth = canvas.width/scale`,
`sHeight = canvas.height/scale`. -/
def cropSourceRect (t : Transform) (canvas : Dimensions) : Rect :=
  { x := -t.x / t.scale
  , y := -t.y / t.scale
  , w := canvas.width / t.scale
  , h := canvas.height / t.scale }

/-- Forward rendering of `drawImageWithWatermark` in the pending state:
`drawImage(mainImage, t.x, t.y, imageWidth*scale, imageHeight*scale)`; this is
the source point visible at frame point `p`. -/
def renderWithTransformSourcePoint (imgDim : Dimensions) (t : Transform) (p : ℚ × ℚ) : ℚ × ℚ :=
  drawImageSourcePoint ⟨0, 0, imgDim.width, imgDim.height⟩
    ⟨t.x, t.y, imgDim.width * t.scale, imgDim.height * t.scale⟩ p

/-- The crop of `handleApplyCrop` rendered 1:1 into a canvas of its own size
(`drawImage(mainImage, sx, sy, sWidth, sHeight, 0, 0, sWidth, sHeight)`):
the source point visible at crop-canvas point `q`. -/
def cropRenderSourcePoint (t : Transform) (canvas : Dimensions) (q : ℚ × ℚ) : ℚ × ℚ :=
  drawImageSourcePoint (cropSourceRect t canvas)
    ⟨0, 0, (cropSourceRect t canvas).w, (cropSourceRect t canvas).h⟩ q

/-- `WatermarkPosition` from `types.ts`; each value carries the string used by
`getPosition`'s `includes` tests. -/
inductive WatermarkPosition where
  | topLeft
  | topRight
  | bottomLeft
  | bottomRight
  | center
deriving DecidableEq

/-- The string value of each `WatermarkPosition` enum member. -/
def positionString : WatermarkPosition → String
  | .topLeft => "top-left"
  | .topRight => "top-right"
  | .bottomLeft => "bottom-left"
  | .bottomRight => "bottom-right"
  | .center => "center"

/-- List version of substring matching at the front. -/
def listStartsWith : List Char → List Char → Bool
  | [], _ => true
  | _ :: _, [] => false
  | a :: as, b :: bs => a = b && listStartsWith as bs

/-- Contiguous-substring test on character lists. -/
def listContainsSub (needle : List Char) : List Char → Bool
  | [] => listStartsWith needle []
  | c :: rest => listStartsWith needle (c :: rest) || listContainsSub needle rest

/-- JavaScript `String.prototype.includes`. -/
def jsIncludes (s pat : String) : Bool :=
  listContainsSub pat.toList s.toList

/-- `getPosition` from `useWatermark`: margin 20; the `includes` tests are made
on the position's string value, in the order left, right, top, bottom; the
`isVertical` argument is accepted but never read. -/
def getPosition (canvasSize contentSize : ℚ) (position : WatermarkPosition)
    (isVertical : Bool := false) : ℚ :=
  let margin : ℚ := 20
  if jsIncludes (positionString position) "left" then margin
  else if jsIncludes (positionString position) "right" then canvasSize - contentSize - margin
  else if jsIncludes (positionString position) "top" then margin
  else if jsIncludes (positionString position) "bottom" then canvasSize - contentSize - margin
  else (canvasSize - contentSize) / 2

/-- `drawWatermarkLogo` from `useWatermark`, abstracted to the rectangle it
draws: width-first sizing to 15% of canvas width, reduced (width re-derived
from the logo's aspect ratio) when the implied height exceeds 15% of canvas
height, positioned via `getPosition` on each axis. -/
def drawWatermarkLogo (logo : Dimensions) (canvasWidth canvasHeight : ℚ)
    (position : WatermarkPosition) : Rect :=
  let logoAspectRatio := logo.width / logo.height
  let logoWidth := canvasWidth * (15/100)
  let logoHeight := logoWidth / logoAspectRatio
  let (logoWidth, logoHeight) :=
    if logoHeight > canvasHeight * (15/100) then
      (canvasHeight * (15/100) * logoAspectRatio, canvasHeight * (15/100))
    else (logoWidth, logoHeight)
  { x := getPosition canvasWidth logoWidth position
  , y := getPosition canvasHeight logoHeight position true
  , w := logoWidth
  , h := logoHeight }

/-- Split a character list at every occurrence of `sep`, like JavaScript
`String.prototype.split` with a single-character separator. -/
def splitOnSep (sep : Char) : List Char → List (List Char)
  | [] => [[]]
  | c :: rest =>
    if c = sep then [] :: splitOnSep sep rest
    else
      match splitOnSep sep rest with
      | [] => [[c]]
      | piece :: pieces => (c :: piece) :: pieces

/-- Strip leading and trailing whitespace, as JS `Number` does before parsing. -/
def trimChars (cs : List Char) : List Char :=
  ((cs.dropWhile Char.isWhitespace).reverse.dropWhile Char.isWhitespace).reverse

/-- Value of a string of decimal digits. -/
def digitsToNat (cs : List Char) : ℕ :=
  cs.foldl (fun n c => 10 * n + (c.toNat - 48)) 0

/-- Decimal subset of the JavaScript `Number` coercion used by
`parseAspectRatio`: trimmed-empty strings coerce to `0`, otherwise an optional
sign followed by digits with an optional fractional part; anything else is NaN
(`none`).  Hexadecimal and exponent forms are not needed by the callers. -/
def jsNumber (s : String) : Option ℚ :=
  let t := trimChars s.toList
  if t = [] then some 0
  else
    let signed : ℚ × List Char :=
      match t with
      | '-' :: cs => (-1, cs)
      | '+' :: cs => (1, cs)
      | cs => (1, cs)
    match splitOnSep '.' signed.2 with
    | [ip] =>
      if ip ≠ [] ∧ ip.all Char.isDigit then some (signed.1 * digitsToNat ip) else none
    | [ip, fp] =>
      if (ip ≠ [] ∨ fp ≠ []) ∧ ip.all Char.isDigit ∧ fp.all Char.isDigit then
        some (signed.1 * ((digitsToNat ip : ℚ) + (digitsToNat fp : ℚ) / (10 : ℚ) ^ fp.length))
      else none
    | _ => none

/-- `parseAspectRatio` from `useWatermark`: requires a `:`, coerces both sides
with `Number`, returns `null` when either side is NaN or the denominator is
zero, and otherwise `w / h`. -/
def parseAspectRatio (ratioStr : String) : Option ℚ :=
  if jsIncludes ratioStr ":" = false then none
  else
    let parts := (splitOnSep ':' ratioStr.toList).map (fun l => String.mk l)
    match parts.get? 0, parts.get? 1 with
    | some ws, some hs =>
      match jsNumber ws, jsNumber hs with
      | some w, some h => if h = 0 then none else some (w / h)
      | _, _ => none
    | _, _ => none

/-- Image values tracked symbolically: an uploaded source, or a crop of a
previous value through the source rectangle computed by the editor. -/
inductive ImageVal where
  | source (id : ℕ)
  | cropped (img : ImageVal) (sx sy sWidth sHeight : ℚ)
deriving DecidableEq

/-- The `ImageEditor` component state touched by crop and regeneration. -/
structure EditorState where
  originalImage : Option ImageVal
  displayImage : Option ImageVal
  imageDimensions : Option Dimensions
  aspectRatio : String
  pendingAspectRatio : Option String
  transform : Transform
  activeOperation : Option String
  error : Option String
deriving DecidableEq

/-- `handleApplyCrop` from `ImageEditor`: if the display image, its
dimensions, the pending aspect ratio or the canvas is missing, return with the
state untouched; otherwise extract the source rectangle
`(-x/scale, -y/scale, canvasW/scale, canvasH/scale)` from the display image,
replace the display and original images with the crop, adopt the pending
aspect ratio, and clear the pending selection.  No error is ever set and
`transform.scale` is never validated. -/
def handleApplyCrop (s : EditorState) (canvas : Option Dimensions) : EditorState :=
  match s.displayImage, s.imageDimensions, s.pendingAspectRatio, canvas with
  | some img, some _, some pending, some cv =>
    let sx := -s.transform.x / s.transform.scale
    let sy := -s.transform.y / s.transform.scale
    let sWidth := cv.width / s.transform.scale
    let sHeight := cv.height / s.transform.scale
    let cropped := ImageVal.cropped img sx sy sWidth sHeight
    { s with displayImage := some cropped
           , originalImage := s.originalImage.map (fun _ => cropped)
           , aspectRatio := pending
           , pendingAspectRatio := none }
  | _, _, _, _ => s

/-- `regenerateImageToAspectRatio` from `geminiService`: a transport failure is
rethrown as `Failed to regenerate image: <message>`; otherwise the first
response part with inline image data is returned, and if none exists the
no-image-data error is raised (and wrapped by the same catch). -/
def regenerateImageToAspectRatio (response : Except String (List (Option ImageVal))) :
    Except String ImageVal :=
  match response with
  | .error msg => .error ("Failed to regenerate image: " ++ msg)
  | .ok parts =>
    match parts.findSome? id with
    | some img => .ok img
    | none => .error "Failed to regenerate image: No image data found in the response from regeneration."

/-- `handleRegenerate` from `ImageEditor`: guard on original image and pending
aspect ratio; mark the operation active and clear the error; inside the try
block, fail when the display image, dimensions or canvas is missing, otherwise
crop exactly as `handleApplyCrop` does and hand the crop to the external call
(whose outcome is the `response` argument); on success adopt the new image and
the pending ratio, on any thrown error record its message; the finally block
always clears the active operation and the pending selection. -/
def handleRegenerate (s : EditorState) (canvas : Option Dimensions)
    (response : Except String (List (Option ImageVal))) : EditorState :=
  match s.originalImage, s.pendingAspectRatio with
  | some _, some pending =>
    let s1 : EditorState := { s with activeOperation := some "regenerate", error := none }
    let attempt : Except String EditorState :=
      match s1.displayImage, s1.imageDimensions, canvas with
      | some img, some _, some cv =>
        let sx := -s1.transform.x / s1.transform.scale
        let sy := -s1.transform.y / s1.transform.scale
        let sWidth := cv.width / s1.transform.scale
        let sHeight := cv.height / s1.transform.scale
        let cropped := ImageVal.cropped img sx sy sWidth sHeight
        match regenerateImageToAspectRatio response with
        | .ok newImg =>
          .ok { s1 with displayImage := some newImg
                      , originalImage := s1.originalImage.map (fun _ => newImg)
                      , aspectRatio := pending }
        | .error msg => .error msg
      | _, _, _ => .error "Canvas or image not ready."
    match attempt with
    | .ok s2 => { s2 with activeOperation := none, pendingAspectRatio := none }
    | .error msg => { s1 with error := some msg, activeOperation := none, pendingAspectRatio := none }
  | _, _ => s

lemma clampPosition_scale (t : Transform) (c i : Dimensions) :
    (clampPosition t c i).scale = t.scale := rfl

/-- Clamping establishes the cover invariant as soon as the scaled image is at
least as large as the canvas on both axes. -/
lemma clampPosition_coverInvariant {t : Transform} {c i : Dimensions}
    (h1 : c.width ≤ t.scale * i.width) (h2 : c.height ≤ t.scale * i.height) :
    coverInvariant (clampPosition t c i) c i := by
  unfold clampPosition coverInvariant
  dsimp only
  have hcw : i.width * t.scale = t.scale * i.width := mul_comm _ _
  have hcy : i.height * t.scale = t.scale * i.height := mul_comm _ _
  rw [hcw, hcy]
  refine ⟨h1, h2, ?_, min_le_left _ _, ?_, min_le_left _ _⟩
  · exact le_min (by linarith) (le_max_right _ _)
  · exact le_min (by linarith) (le_max_right _ _)

/-- The seed scale covers the canvas on both axes. -/
lemma seed_scale_covers {c i : Dimensions}
    (hcw : 0 < c.width) (hch : 0 < c.height) (hiw : 0 < i.width) (hih : 0 < i.height) :
    c.width ≤ (seedCoverTransform c i).scale * i.width ∧
    c.height ≤ (seedCoverTransform c i).scale * i.height := by
  unfold seedCoverTransform
  dsimp only
  split_ifs with h
  · constructor
    · rw [div_mul_eq_mul_div, le_div_iff₀ hiw]
    · rw [div_mul_eq_mul_div, le_div_iff₀ hiw]
      have := (div_lt_div_iff₀ hih hch).mp h
      linarith
  · push_neg at h
    constructor
    · rw [div_mul_eq_mul_div, le_div_iff₀ hih]
      have := (div_le_div_iff₀ hch hih).mp h
      linarith
    · rw [div_mul_eq_mul_div, le_div_iff₀ hih]

/-- The seed transform of `handleSelectAspectRatio` satisfies the invariant. -/
lemma seedCoverTransform_coverInvariant {c i : Dimensions}
    (hcw : 0 < c.width) (hch : 0 < c.height) (hiw : 0 < i.width) (hih : 0 < i.height) :
    coverInvariant (seedCoverTransform c i) c i := by
  obtain ⟨h1, h2⟩ := seed_scale_covers hcw hch hiw hih
  have hx : (seedCoverTransform c i).x
      = (c.width - i.width * (seedCoverTransform c i).scale) / 2 := rfl
  have hy : (seedCoverTransform c i).y
      = (c.height - i.height * (seedCoverTransform c i).scale) / 2 := rfl
  have hmx : i.width * (seedCoverTransform c i).scale
      = (seedCoverTransform c i).scale * i.width := mul_comm _ _
  have hmy : i.height * (seedCoverTransform c i).scale
      = (seedCoverTransform c i).scale * i.height := mul_comm _ _
  refine ⟨h1, h2, ?_, ?_, ?_, ?_⟩ <;> simp only [hx, hy, hmx, hmy] <;> linarith

/-- C1: every transform produced by the controller — the seed of
`handleSelectAspectRatio` followed by any sequence of drags (via
`clampPosition`) and wheel zooms — satisfies the cover invariant: the scaled
image is at least canvas-sized on both axes and the position stays within the
derived bounds `canvasW - scale*imgW ≤ x ≤ 0`, `canvasH - scale*imgH ≤ y ≤ 0`. -/
theorem controller_coverInvariant (c i : Dimensions)
    (hcw : 0 < c.width) (hch : 0 < c.height) (hiw : 0 < i.width) (hih : 0 < i.height)
    (t : Transform) (ht : ReachableTransform c i t) : coverInvariant t c i := by
  induction ht with
  | seed => exact seedCoverTransform_coverInvariant hcw hch hiw hih
  | drag t dx dy _ ih => exact clampPosition_coverInvariant ih.1 ih.2.1
  | wheel t dY mX mY _ ih =>
    unfold handleWheel
    dsimp only
    split
    · exact ih
    · next h =>
      push_neg at h
      rw [clampPosition_scale] at h
      exact clampPosition_coverInvariant h.1 h.2

/-- Witness for C1 at canvas 2×2, image 1×1, with the seed transform. -/
theorem controller_coverInvariant_witness :
    coverInvariant (seedCoverTransform ⟨2, 2⟩ ⟨1, 1⟩) ⟨2, 2⟩ ⟨1, 1⟩ :=
  controller_coverInvariant ⟨2, 2⟩ ⟨1, 1⟩ (by norm_num) (by norm_num) (by norm_num)
    (by norm_num) _ ReachableTransform.seed

/-- C2: starting from a transform whose scale is at least `coverScale`, the
wheel zoom never returns a transform with scale below
`coverScale = max(canvasW/imgW, canvasH/imgH)`; and whenever the clamped
candidate (whose scale is `max(0.1, prev.scale + deltaY * -0.001)`) would
leave the scaled image smaller than the canvas on either axis, the zoom is
rejected and the previous transform is returned unchanged. -/
theorem handleWheel_never_below_coverScale (prev : Transform) (dY mX mY : ℚ)
    (c i : Dimensions)
    (hcw : 0 < c.width) (hch : 0 < c.height) (hiw : 0 < i.width) (hih : 0 < i.height)
    (hprev : coverScale c i ≤ prev.scale) :
    coverScale c i ≤ (handleWheel prev dY mX mY c i).scale ∧
    ((max (1/10) (prev.scale + dY * (-1/1000)) * i.width < c.width ∨
      max (1/10) (prev.scale + dY * (-1/1000)) * i.height < c.height) →
      handleWheel prev dY mX mY c i = prev) := by
  unfold handleWheel
  dsimp only
  constructor
  · split
    · exact hprev
    · next h =>
      push_neg at h
      rw [clampPosition_scale] at h
      rw [clampPosition_scale]
      unfold coverScale
      exact max_le ((div_le_iff₀ hiw).mpr h.1) ((div_le_iff₀ hih).mpr h.2)
  · intro hrej
    rw [if_pos]
    exact hrej

/-- Witness for C2: canvas 2×2, image 1×1, previous transform at scale 2,
a zoom-out wheel event that is rejected. -/
theorem handleWheel_never_below_coverScale_witness :
    coverScale ⟨2, 2⟩ ⟨1, 1⟩ ≤ (handleWheel ⟨2, 0, 0⟩ 1000 1 1 ⟨2, 2⟩ ⟨1, 1⟩).scale ∧
    ((max (1/10) ((2 : ℚ) + 1000 * (-1/1000)) * (1 : ℚ) < 2 ∨
      max (1/10) ((2 : ℚ) + 1000 * (-1/1000)) * (1 : ℚ) < 2) →
      handleWheel ⟨2, 0, 0⟩ 1000 1 1 ⟨2, 2⟩ ⟨1, 1⟩ = ⟨2, 0, 0⟩) :=
  handleWheel_never_below_coverScale ⟨2, 0, 0⟩ 1000 1 1 ⟨2, 2⟩ ⟨1, 1⟩
    (by norm_num) (by norm_num) (by norm_num) (by norm_num)
    (by unfold coverScale; norm_num)

/-- Helper: clamping is the identity on a transform already within bounds. -/
lemma clampPosition_eq_self {t : Transform} {c i : Dimensions}
    (hx1 : c.width - t.scale * i.width ≤ t.x) (hx2 : t.x ≤ 0)
    (hy1 : c.height - t.scale * i.height ≤ t.y) (hy2 : t.y ≤ 0) :
    clampPosition t c i = t := by
  unfold clampPosition
  dsimp only
  rw [max_eq_left (by rw [mul_comm]; exact hx1), min_eq_right hx2,
      max_eq_left (by rw [mul_comm]; exact hy1), min_eq_right hy2]

/-- C4: round-trip consistency of crop extraction with the compositor's
forward mapping.  For any transform with positive scale, the source-image
point shown at crop-canvas point `p/scale` by rendering the extracted buffer
1:1 equals the source point shown at frame point `p` by rendering the source
with the transform; and `p` lies in the frame iff `p/scale` lies in the crop
canvas of size `(sWidth, sHeight)`. -/
theorem extractCrop_roundtrip (t : Transform) (c i : Dimensions) (p : ℚ × ℚ)
    (hs : 0 < t.scale) (hiw : 0 < i.width) (hih : 0 < i.height)
    (hcw : 0 < c.width) (hch : 0 < c.height) :
    cropRenderSourcePoint t c (p.1 / t.scale, p.2 / t.scale)
      = renderWithTransformSourcePoint i t p ∧
    ((0 ≤ p.1 ∧ p.1 ≤ c.width ∧ 0 ≤ p.2 ∧ p.2 ≤ c.height) ↔
     (0 ≤ p.1 / t.scale ∧ p.1 / t.scale ≤ (cropSourceRect t c).w ∧
      0 ≤ p.2 / t.scale ∧ p.2 / t.scale ≤ (cropSourceRect t c).h)) := by
  have hs' : t.scale ≠ 0 := ne_of_gt hs
  constructor
  · unfold cropRenderSourcePoint renderWithTransformSourcePoint drawImageSourcePoint
      cropSourceRect
    dsimp only
    refine Prod.ext ?_ ?_ <;> dsimp only <;> field_simp <;> ring
  · unfold cropSourceRect
    dsimp only
    have e1 : (0 ≤ p.1 / t.scale) = (0 ≤ p.1) := by
      rw [le_div_iff₀ hs, zero_mul]
    have e2 : (0 ≤ p.2 / t.scale) = (0 ≤ p.2) := by
      rw [le_div_iff₀ hs, zero_mul]
    have e3 : (p.1 / t.scale ≤ c.width / t.scale) = (p.1 ≤ c.width) := by
      rw [div_le_div_iff_of_pos_right hs]
    have e4 : (p.2 / t.scale ≤ c.height / t.scale) = (p.2 ≤ c.height) := by
      rw [div_le_div_iff_of_pos_right hs]
    rw [e1, e2, e3, e4]

/-- Witness for C4 at transform (scale 2, x −1, y −1), canvas 4×4,
image 3×3, frame point (1, 2). -/
theorem extractCrop_roundtrip_witness :
    cropRenderSourcePoint ⟨2, -1, -1⟩ ⟨4, 4⟩ ((1 : ℚ) / 2, (2 : ℚ) / 2)
      = renderWithTransformSourcePoint ⟨3, 3⟩ ⟨2, -1, -1⟩ (1, 2) ∧
    ((0 ≤ (1 : ℚ) ∧ (1 : ℚ) ≤ 4 ∧ 0 ≤ (2 : ℚ) ∧ (2 : ℚ) ≤ 4) ↔
     (0 ≤ (1 : ℚ) / 2 ∧ (1 : ℚ) / 2 ≤ (cropSourceRect ⟨2, -1, -1⟩ ⟨4, 4⟩).w ∧
      0 ≤ (2 : ℚ) / 2 ∧ (2 : ℚ) / 2 ≤ (cropSourceRect ⟨2, -1, -1⟩ ⟨4, 4⟩).h)) :=
  extractCrop_roundtrip ⟨2, -1, -1⟩ ⟨4, 4⟩ ⟨3, 3⟩ (1, 2)
    (by norm_num) (by norm_num) (by norm_num) (by norm_num) (by norm_num)

/-- C5: clamping the seed transform of `handleSelectAspectRatio` is a no-op —
seeding never produces an out-of-bounds transform. -/
theorem clamp_seedCoverTransform (c i : Dimensions)
    (hcw : 0 < c.width) (hch : 0 < c.height) (hiw : 0 < i.width) (hih : 0 < i.height) :
    clampPosition (seedCoverTransform c i) c i = seedCoverTransform c i := by
  have h := seedCoverTransform_coverInvariant hcw hch hiw hih
  exact clampPosition_eq_self h.2.2.1 h.2.2.2.1 h.2.2.2.2.1 h.2.2.2.2.2

/-- Witness for C5 at canvas 2×3, image 4×5. -/
theorem clamp_seedCoverTransform_witness :
    clampPosition (seedCoverTransform ⟨2, 3⟩ ⟨4, 5⟩) ⟨2, 3⟩ ⟨4, 5⟩
      = seedCoverTransform ⟨2, 3⟩ ⟨4, 5⟩ :=
  clamp_seedCoverTransform ⟨2, 3⟩ ⟨4, 5⟩ (by norm_num) (by norm_num) (by norm_num) (by norm_num)

/-- C8: for a logo with positive dimensions on a positive canvas, the drawn
watermark-logo rectangle is at most 15% of the canvas on each axis and keeps
the logo's own aspect ratio (width-first sizing, reduced with the width
re-derived when the implied height exceeds the cap). -/
theorem drawWatermarkLogo_size (logo : Dimensions) (canvasWidth canvasHeight : ℚ)
    (pos : WatermarkPosition)
    (hlw : 0 < logo.width) (hlh : 0 < logo.height)
    (hcw : 0 < canvasWidth) (hch : 0 < canvasHeight) :
    (drawWatermarkLogo logo canvasWidth canvasHeight pos).w ≤ canvasWidth * (15/100) ∧
    (drawWatermarkLogo logo canvasWidth canvasHeight pos).h ≤ canvasHeight * (15/100) ∧
    (drawWatermarkLogo logo canvasWidth canvasHeight pos).w
        / (drawWatermarkLogo logo canvasWidth canvasHeight pos).h
      = logo.width / logo.height := by
  unfold drawWatermarkLogo
  have hratio : 0 < logo.width / logo.height := div_pos hlw hlh
  dsimp only
  split_ifs with h
  · dsimp only
    refine ⟨?_, le_refl _, ?_⟩
    · have := (lt_div_iff₀ hratio).mp h
      linarith
    · exact mul_div_cancel_left₀ _ (by positivity)
  · push_neg at h
    dsimp only
    refine ⟨le_refl _, h, ?_⟩
    rw [div_div_eq_mul_div]
    exact mul_div_cancel_left₀ _ (by positivity)

/-- Witness for C8: 40×10 logo on a 500×400 canvas, bottom-right anchor. -/
theorem drawWatermarkLogo_size_witness :
    (drawWatermarkLogo ⟨40, 10⟩ 500 400 WatermarkPosition.bottomRight).w ≤ 500 * (15/100) ∧
    (drawWatermarkLogo ⟨40, 10⟩ 500 400 WatermarkPosition.bottomRight).h ≤ 400 * (15/100) ∧
    (drawWatermarkLogo ⟨40, 10⟩ 500 400 WatermarkPosition.bottomRight).w
        / (drawWatermarkLogo ⟨40, 10⟩ 500 400 WatermarkPosition.bottomRight).h
      = (40 : ℚ) / 10 :=
  drawWatermarkLogo_size ⟨40, 10⟩ 500 400 WatermarkPosition.bottomRight
    (by norm_num) (by norm_num) (by norm_num) (by norm_num)

/-- C9: when the scaled image is strictly smaller than the canvas on an axis,
`clampPosition` pins that axis's coordinate to 0 whatever the input position;
it never changes `scale`, so clamping alone cannot restore the cover invariant
once the scale is below `coverScale`. -/
theorem clampPosition_undersized (t : Transform) (c i : Dimensions) :
    (i.width * t.scale < c.width → (clampPosition t c i).x = 0) ∧
    (i.height * t.scale < c.height → (clampPosition t c i).y = 0) ∧
    (clampPosition t c i).scale = t.scale ∧
    (0 < i.width → 0 < i.height → t.scale < coverScale c i →
      ¬ (c.width ≤ (clampPosition t c i).scale * i.width ∧
         c.height ≤ (clampPosition t c i).scale * i.height)) := by
  refine ⟨?_, ?_, rfl, ?_⟩
  · intro h
    unfold clampPosition
    dsimp only
    exact min_eq_left (le_trans (by linarith) (le_max_right _ _))
  · intro h
    unfold clampPosition
    dsimp only
    exact min_eq_left (le_trans (by linarith) (le_max_right _ _))
  · intro hiw hih hsc
    rw [clampPosition_scale]
    rintro ⟨hA, hB⟩
    rcases lt_max_iff.mp hsc with h | h
    · have := (lt_div_iff₀ hiw).mp h
      linarith
    · have := (lt_div_iff₀ hih).mp h
      linarith

/-- Witness for C9: scale 1 on a 2×2 image inside a 10×10 canvas, position
(5, −7): both axes clamp to 0, the scale is unchanged and still below
`coverScale`, so the cover invariant stays violated. -/
theorem clampPosition_undersized_witness :
    (clampPosition ⟨1, 5, -7⟩ ⟨10, 10⟩ ⟨2, 2⟩).x = 0 ∧
    (clampPosition ⟨1, 5, -7⟩ ⟨10, 10⟩ ⟨2, 2⟩).y = 0 ∧
    (clampPosition ⟨1, 5, -7⟩ ⟨10, 10⟩ ⟨2, 2⟩).scale = 1 ∧
    ¬ ((10 : ℚ) ≤ (clampPosition ⟨1, 5, -7⟩ ⟨10, 10⟩ ⟨2, 2⟩).scale * 2 ∧
       (10 : ℚ) ≤ (clampPosition ⟨1, 5, -7⟩ ⟨10, 10⟩ ⟨2, 2⟩).scale * 2) := by
  have h := clampPosition_undersized ⟨1, 5, -7⟩ ⟨10, 10⟩ ⟨2, 2⟩
  exact ⟨h.1 (by norm_num), h.2.1 (by norm_num), h.2.2.1,
    h.2.2.2 (by norm_num) (by norm_num) (by unfold coverScale; norm_num)⟩

/-- C3: evaluation of `getPosition`.  The `BottomRight` and `Center` examples
of the spec hold (first four conjuncts), but because `getPosition` tests
`includes('left')` / `includes('right')` before the top/bottom tests and
ignores `isVertical`, the vertical offset for `TopRight` is 350 where
per-axis anchor resolution requires the top margin 20, and the vertical
offset for `BottomLeft` is 20 where per-axis resolution requires
`400 - 30 - 20 = 350` (last two conjuncts). -/
theorem getPosition_vertical_mismatch :
    getPosition 500 100 WatermarkPosition.bottomRight = 380 ∧
    getPosition 400 30 WatermarkPosition.bottomRight true = 350 ∧
    getPosition 500 100 WatermarkPosition.center = 200 ∧
    getPosition 400 30 WatermarkPosition.center true = 185 ∧
    getPosition 400 30 WatermarkPosition.topRight true = 350 ∧
    getPosition 400 30 WatermarkPosition.bottomLeft true = 20 := by
  refine ⟨?_, ?_, ?_, ?_, ?_, ?_⟩ <;>
    · simp +decide only [getPosition, positionString]
      try norm_num

/-- C10: `parseAspectRatio` accepts strings whose numerator coerces to zero —
`"0:5"` and `":5"` (JS `Number('') = 0`) both yield `0`, not `null`, so a
caller can receive a non-positive aspect ratio. -/
theorem parseAspectRatio_returns_zero :
    parseAspectRatio "0:5" = some 0 ∧ parseAspectRatio ":5" = some 0 ∧ ¬ (0 : ℚ) > 0 := by
  refine ⟨?_, ?_, by norm_num⟩ <;>
    simp +decide [parseAspectRatio, jsIncludes, jsNumber, trimChars, splitOnSep, digitsToNat]

/-- C6 counterexample: with no display image loaded (scale 1 pending crop),
`handleApplyCrop` returns the entire prior state unchanged — in particular
its `error` field is still `none`, so no `InvalidState` error is reported,
contrary to the claim that the failure is reported. -/
theorem handleApplyCrop_no_error_reported :
    handleApplyCrop
        ⟨some (ImageVal.source 0), none, none, "original", some "1:1", ⟨1, 0, 0⟩, none, none⟩
        (some ⟨10, 10⟩)
      = ⟨some (ImageVal.source 0), none, none, "original", some "1:1", ⟨1, 0, 0⟩, none, none⟩ ∧
    (handleApplyCrop
        ⟨some (ImageVal.source 0), none, none, "original", some "1:1", ⟨1, 0, 0⟩, none, none⟩
        (some ⟨10, 10⟩)).error = none :=
  ⟨rfl, rfl⟩

/-- C6 amended: when the display image, its dimensions, the pending aspect
ratio or the canvas is missing, `handleApplyCrop` performs no extraction and
retains the prior state unchanged, but it aborts silently — no error is ever
reported (`error` is always left untouched) — and `transform.scale ≤ 0` is not
checked: whenever all four inputs are present, extraction proceeds regardless
of the scale, replacing the display image with the crop and committing the
pending aspect ratio. -/
theorem handleApplyCrop_behavior (s : EditorState) (canvas : Option Dimensions) :
    ((s.displayImage = none ∨ s.imageDimensions = none ∨ s.pendingAspectRatio = none ∨
        canvas = none) → handleApplyCrop s canvas = s) ∧
    (handleApplyCrop s canvas).error = s.error ∧
    (∀ img dims pending cv, s.displayImage = some img → s.imageDimensions = some dims →
      s.pendingAspectRatio = some pending → canvas = some cv →
      (handleApplyCrop s canvas).displayImage
          = some (ImageVal.cropped img (-s.transform.x / s.transform.scale)
              (-s.transform.y / s.transform.scale) (cv.width / s.transform.scale)
              (cv.height / s.transform.scale)) ∧
      (handleApplyCrop s canvas).aspectRatio = pending ∧
      (handleApplyCrop s canvas).pendingAspectRatio = none) := by
  obtain ⟨oi, di, idim, ar, par, tr, ao, er⟩ := s
  refine ⟨?_, ?_, ?_⟩
  · intro h
    rcases di <;> rcases idim <;> rcases par <;> rcases canvas <;>
      simp_all [handleApplyCrop]
  · rcases di <;> rcases idim <;> rcases par <;> rcases canvas <;> rfl
  · intro img dims pending cv h1 h2 h3 h4
    dsimp only at h1 h2 h3
    subst h1; subst h2; subst h3; subst h4
    exact ⟨rfl, rfl, rfl⟩

/-- Witness for C6 amended: the missing-image state aborts silently, and a
fully loaded state with `transform.scale = 0` still extracts and commits. -/
theorem handleApplyCrop_behavior_witness :
    handleApplyCrop
        ⟨none, none, none, "original", some "1:1", ⟨1, 0, 0⟩, none, none⟩ (some ⟨10, 10⟩)
      = ⟨none, none, none, "original", some "1:1", ⟨1, 0, 0⟩, none, none⟩ ∧
    (handleApplyCrop
        ⟨some (ImageVal.source 0), some (ImageVal.source 0), some ⟨8, 8⟩, "original",
          some "1:1", ⟨0, 0, 0⟩, none, none⟩ (some ⟨10, 10⟩)).aspectRatio = "1:1" ∧
    (handleApplyCrop
        ⟨some (ImageVal.source 0), some (ImageVal.source 0), some ⟨8, 8⟩, "original",
          some "1:1", ⟨0, 0, 0⟩, none, none⟩ (some ⟨10, 10⟩)).pendingAspectRatio = none :=
  ⟨(handleApplyCrop_behavior _ _).1 (Or.inl rfl),
   ((handleApplyCrop_behavior _ _).2.2 (ImageVal.source 0) ⟨8, 8⟩ "1:1" ⟨10, 10⟩
      rfl rfl rfl rfl).2.1,
   ((handleApplyCrop_behavior _ _).2.2 (ImageVal.source 0) ⟨8, 8⟩ "1:1" ⟨10, 10⟩
      rfl rfl rfl rfl).2.2⟩

/-- C7: when the external regeneration call fails (transport error or no
image data in the response), `handleRegenerate` reports the wrapped error
message, leaves the display image, original image and committed aspect ratio
at their pre-call values, and clears the pending aspect-ratio selection. -/
theorem handleRegenerate_rollback (s : EditorState) (cv : Dimensions)
    (response : Except String (List (Option ImageVal)))
    (orig img : ImageVal) (dims : Dimensions) (pending msg : String)
    (h1 : s.originalImage = some orig) (h2 : s.pendingAspectRatio = some pending)
    (h3 : s.displayImage = some img) (h4 : s.imageDimensions = some dims)
    (hsvc : regenerateImageToAspectRatio response = .error msg) :
    (handleRegenerate s (some cv) response).error = some msg ∧
    (handleRegenerate s (some cv) response).displayImage = s.displayImage ∧
    (handleRegenerate s (some cv) response).originalImage = s.originalImage ∧
    (handleRegenerate s (some cv) response).aspectRatio = s.aspectRatio ∧
    (handleRegenerate s (some cv) response).pendingAspectRatio = none := by
  obtain ⟨oi, di, idim, ar, par, tr, ao, er⟩ := s
  dsimp only at h1 h2 h3 h4
  subst h1; subst h2; subst h3; subst h4
  unfold handleRegenerate
  dsimp only
  rw [hsvc]
  exact ⟨rfl, rfl, rfl, rfl, rfl⟩

/-- Witness for C7: a response with no image part fails with the wrapped
no-image-data message and rolls back. -/
theorem handleRegenerate_rollback_witness :
    (handleRegenerate
        ⟨some (ImageVal.source 1), some (ImageVal.source 1), some ⟨8, 8⟩, "original",
          some "16:9", ⟨2, -1, -1⟩, none, none⟩ (some ⟨10, 10⟩) (.ok [none])).error
      = some "Failed to regenerate image: No image data found in the response from regeneration." ∧
    (handleRegenerate
        ⟨some (ImageVal.source 1), some (ImageVal.source 1), some ⟨8, 8⟩, "original",
          some "16:9", ⟨2, -1, -1⟩, none, none⟩ (some ⟨10, 10⟩) (.ok [none])).displayImage
      = some (ImageVal.source 1) ∧
    (handleRegenerate
        ⟨some (ImageVal.source 1), some (ImageVal.source 1), some ⟨8, 8⟩, "original",
          some "16:9", ⟨2, -1, -1⟩, none, none⟩ (some ⟨10, 10⟩) (.ok [none])).originalImage
      = some (ImageVal.source 1) ∧
    (handleRegenerate
        ⟨some (ImageVal.source 1), some (ImageVal.source 1), some ⟨8, 8⟩, "original",
          some "16:9", ⟨2, -1, -1⟩, none, none⟩ (some ⟨10, 10⟩) (.ok [none])).aspectRatio
      = "original" ∧
    (handleRegenerate
        ⟨some (ImageVal.source 1), some (ImageVal.source 1), some ⟨8, 8⟩, "original",
          some "16:9", ⟨2, -1, -1⟩, none, none⟩ (some ⟨10, 10⟩) (.ok [none])).pendingAspectRatio
      = none :=
  handleRegenerate_rollback _ ⟨10, 10⟩ (.ok [none]) (ImageVal.source 1) (ImageVal.source 1)
    ⟨8, 8⟩ "16:9" "Failed to regenerate image: No image data found in the response from regeneration."
    rfl rfl rfl rfl rfl
